import Mathlib

/-!
Verification development for the m_sweep job runner.

Sources embedded here:
- src/app/run_m_sweep.py      (fixed 16-entry grid variant)
- src/app/run_m_sweep_ivf.py  (parametric grid variant)

Modelling conventions:
- Python lists become Lean lists; Python list slicing (including negative
  indices) is embedded faithfully by pySlice below.
- Python integers become Int (configuration entries, group indices,
  integer command-line arguments); no overflow is involved.
- Python float hyperparameters (tau, beta, lr) are embedded by their
  canonical decimal string rendering, i.e. the text that str() produces
  for them, since the program only ever uses them via string formatting.
  Distinct float values have distinct canonical renderings.
- Path objects are embedded as strings; path joining with the / operator
  becomes string concatenation with a "/" separator, which matches
  str(Path(...) / ...) for the normalised paths the program builds.
- The process environment is embedded as a partial map from variable
  names to values; os.environ.copy() is the ambient map itself, since
  the copy is never observed alongside the original.
- Filesystem state relevant to the artifact-skip logic is embedded as a
  Boolean existence predicate on paths, sampled at the moment of each
  check; directory creation and log opening are embedded by an explicit
  FS record.
- Subprocess execution is embedded by an exit-code oracle
  (String to Int) plus a sequential driver; the program never runs two
  workers at once, so a left-to-right run is faithful. Planning (which
  commands to issue, which pairs to skip) is separated from execution,
  mirroring the fact that configuration errors are raised before any
  subprocess is spawned.
-/

/-- A sweep configuration: a triple of stage parameters (m1, m2, m3). -/
abbrev Config := Int × Int × Int

/-- Normalisation of one Python slice bound for a list of length n:
a negative bound counts from the end and clamps at 0, a nonnegative
bound clamps at n. -/
def pyIndex (n : Nat) (i : Int) : Nat :=
  if i < 0 then ((n : Int) + i).toNat else min i.toNat n

/-- Python list slicing xs[a:b] with step 1, for arbitrary integer bounds. -/
def pySlice {α : Type} (xs : List α) (a b : Int) : List α :=
  (xs.take (pyIndex xs.length b)).drop (pyIndex xs.length a)

/-- GRID_MS, run_m_sweep.py lines 6 to 11: the fixed 16-entry grid. -/
def GRID_MS : List Config :=
  [(1,1,1), (1,2,1), (1,4,1), (1,8,1),
   (2,1,2), (2,2,2), (2,4,2), (2,8,2),
   (4,1,4), (4,2,4), (4,4,4), (4,8,4),
   (8,1,8), (8,2,8), (8,4,8), (8,8,8)]

/-- Group selection shared by both variants (run_m_sweep.py lines 65 to 67,
run_m_sweep_ivf.py lines 118 to 120):
start = group * 4; end = min(start + 4, len(grid)); grid[start:end]. -/
def selectGroup (grid : List Config) (g : Int) : List Config :=
  pySlice grid (g * 4) (min (g * 4 + 4) (grid.length : Int))

/-- Group selection with the empty-slice check of run_m_sweep.py
lines 65 to 69: raises ValueError when the slice is empty. -/
def pickGroupFixed (grid : List Config) (g : Int) : Except String (List Config) :=
  let ms_list := selectGroup grid g
  if ms_list.isEmpty then
    Except.error ("Group " ++ toString g ++ " has no configs")
  else
    Except.ok ms_list

/-- Python str.split on a single comma: splits a character list at every
comma, keeping empty pieces, as "a,,b".split(",") does. -/
def splitComma : List Char → List (List Char)
  | [] => [[]]
  | c :: cs =>
    if c = ',' then [] :: splitComma cs
    else
      match splitComma cs with
      | [] => [[c]]
      | t :: ts => (c :: t) :: ts

/-- Python str.strip on a character list: drop whitespace from both ends. -/
def pyStripChars (cs : List Char) : List Char :=
  ((cs.dropWhile Char.isWhitespace).reverse.dropWhile Char.isWhitespace).reverse

/-- Python str.strip. -/
def pyStrip (s : String) : String := String.mk (pyStripChars s.data)

/-- Python s.split(",") on a String. -/
def pySplitComma (s : String) : List String :=
  (splitComma s.data).map (fun cs => String.mk cs)

/-- The allowed stage2 tokens, run_m_sweep_ivf.py line 109. -/
def allowedS2 : List String := ["1", "2", "4", "8", "16", "32"]

/-- Python int() as applied on line 110 of run_m_sweep_ivf.py. The program
only ever converts tokens that already passed the membership filter against
allowedS2, so the conversion is embedded as the numeric value of those six
tokens (any other argument is unreachable in the program). -/
def s2val (x : String) : Int :=
  if x = "1" then 1 else if x = "2" then 2 else if x = "4" then 4
  else if x = "8" then 8 else if x = "16" then 16 else if x = "32" then 32 else 0

/-- run_m_sweep_ivf.py line 108: stripped, non-empty raw tokens of the
comma-separated s2_values argument, in input order. -/
def s2raw (s2_values : String) : List String :=
  ((pySplitComma s2_values).map pyStrip).filter (fun x => ¬ x = "")

/-- run_m_sweep_ivf.py line 110: the retained stage2 values. -/
def s2list (s2_values : String) : List Int :=
  ((s2raw s2_values).filter (fun x => allowedS2.contains x)).map s2val

/-- run_m_sweep_ivf.py line 116: the parametric grid, one triple
(m13, s2, m13) per retained stage2 value, in order. -/
def buildGrid (m13 : Int) (s2_values : String) : List Config :=
  (s2list s2_values).map (fun m2 => (m13, m2, m13))

/-- Python s.replace with a one-character pattern and an empty
replacement: remove every dot. -/
def stripDots (s : String) : String :=
  String.mk (s.data.filter (fun c => ¬ c = '.'))

/-- ms_str, run_m_sweep.py line 98 and run_m_sweep_ivf.py line 152:
the configuration as a comma-joined string. -/
def msStr (c : Config) : String :=
  toString c.1 ++ "," ++ toString c.2.1 ++ "," ++ toString c.2.2

/-- ms_tag, run_m_sweep.py line 99 and run_m_sweep_ivf.py line 153:
the configuration tag used in artifact filenames. -/
def msTag (c : Config) : String :=
  "m" ++ toString c.1 ++ "-" ++ toString c.2.1 ++ "-" ++ toString c.2.2

/-- One observable step of the orchestrator main loop, per selected
(configuration, mode) pair: either a worker invocation with its full
command line, or a skip notice (a message printed to the console and
written to the log). -/
inductive Event where
  | run (cmd : String) : Event
  | skip (msg : String) : Event
deriving DecidableEq

/-- Commands of a step list, in order. -/
def runsOf (evs : List Event) : List String :=
  evs.filterMap (fun e => match e with
    | Event.run c => some c
    | Event.skip _ => none)

/-- Source function run_cmd (run_m_sweep.py lines 13 to 30,
run_m_sweep_ivf.py lines 11 to 28), renamed because its source name is a
Lean command keyword: spawn the command, stream its combined output, wait for
termination, and raise RuntimeError on a non-zero exit code. The exit
code of the external worker is an oracle from command line to Int. -/
def runCmd (exitCode : String → Int) (cmd : String) : Except String Unit :=
  if ¬ exitCode cmd = 0 then
    Except.error ("Command failed (" ++ toString (exitCode cmd) ++ "): " ++ cmd)
  else
    Except.ok ()

/-- Sequential execution of the planned steps: each worker command is
awaited to completion before the next step; a RuntimeError from run_cmd
propagates out of main, so execution stops at the first failure.
Returns the commands that were started, in order, and the error
message if the job aborted. -/
def execPlan (exitCode : String → Int) : List Event → List String × Option String
  | [] => ([], none)
  | Event.skip _ :: rest => execPlan exitCode rest
  | Event.run c :: rest =>
    match runCmd exitCode c with
    | Except.ok _ =>
      let r := execPlan exitCode rest
      (c :: r.1, r.2)
    | Except.error e => ([c], some e)

/-- A whole job: a planning error aborts with no command started at all;
otherwise the plan is executed sequentially. -/
def execJob (exitCode : String → Int) (p : Except String (List Event)) :
    List String × Option String :=
  match p with
  | Except.error e => ([], some e)
  | Except.ok evs => execPlan exitCode evs

/-- A process environment: a partial map from variable names to values. -/
abbrev Env := String → Option String

/-- Assignment env[k] = v. -/
def envSet (e : Env) (k v : String) : Env :=
  fun x => if x = k then some v else e x

/-- Python dict.setdefault: set k to v only when k is absent. -/
def envSetdefault (e : Env) (k v : String) : Env :=
  match e k with
  | some _ => e
  | none => envSet e k v

/-- Filesystem state for the directory and log bookkeeping: the set of
existing directories and the files with their contents. -/
structure FS where
  dirs : List String
  files : List (String × String)

/-- Path.mkdir with exist_ok as in pathlib: creating an existing
directory fails with FileExistsError unless exist_ok is set. The
parents flag only concerns intermediate directories, which this model
does not track separately. -/
def FS.mkdir (fs : FS) (d : String) (exist_ok : Bool) : Except String FS :=
  if fs.dirs.contains d then
    if exist_ok then Except.ok fs
    else Except.error ("FileExistsError: " ++ d)
  else
    Except.ok { fs with dirs := d :: fs.dirs }

/-- Total form of mkdir with exist_ok=True, the only form the program
uses (run_m_sweep.py lines 73 and 78, run_m_sweep_ivf.py lines 128
and 133). -/
def FS.mkdirP (fs : FS) (d : String) : FS :=
  if fs.dirs.contains d then fs else { fs with dirs := d :: fs.dirs }

/-- Python open(path, "w"): create the file, truncating any previous
content to the empty string. -/
def FS.openW (fs : FS) (p : String) : FS :=
  { fs with files := (p, "") :: fs.files.filter (fun kv => ¬ kv.1 = p) }

/-- Content of a file, if it exists. -/
def FS.read (fs : FS) (p : String) : Option String :=
  ((fs.files.find? (fun kv => kv.1 = p)).map Prod.snd)

namespace RunMSweep

/-- Command-line arguments of run_m_sweep.py (parse_args, lines 32
to 59). Float-typed flags carry their canonical decimal rendering. -/
structure Args where
  dataset : String
  work_dir : String
  data_root : String
  run_root : String
  bits_sq : Int
  nlist : Int
  select_nprobe : Int
  k2_fixed : Int
  alphas : String
  tau : String
  beta : String
  cands : Int
  teacher : String
  lr : String
  epochs : Int
  subset : Int
  q_batch : Int
  slug : String
  group : Int

/-- The argparse defaults of run_m_sweep.py, with the required group
index supplied; str(5e-4) renders as 0.0005. -/
def defaultArgs (group : Int) : Args :=
  { dataset := "beir_nq"
    work_dir := "/mnt/work"
    data_root := "/mnt/work/datasets"
    run_root := "/mnt/work/runs/nq_m_sweep"
    bits_sq := 4
    nlist := 1024
    select_nprobe := 64
    k2_fixed := 1000
    alphas := "2,2,2"
    tau := "0.5"
    beta := "6.0"
    cands := 2048
    teacher := "cos"
    lr := "0.0005"
    epochs := 5
    subset := 50000
    q_batch := 64
    slug := "auto"
    group := group }

/-- adapter_suffix, run_m_sweep.py lines 88 to 92: the shared adapter
flags appended to every command of the job. -/
def adapter_suffix (a : Args) : String :=
  " --slug " ++ a.slug ++ " --tau " ++ a.tau ++ " --beta " ++ a.beta ++
  " --cands " ++ toString a.cands ++ " --teacher " ++ a.teacher ++
  " --lr " ++ a.lr ++ " --epochs " ++ toString a.epochs ++
  " --subset " ++ toString a.subset ++ " --q_batch " ++ toString a.q_batch

/-- ivf_csv, run_m_sweep.py line 104: the baseline-mode artifact path. -/
def ivf_csv (results_dir : String) (c : Config) : String :=
  results_dir ++ "/ivf_with_adapter_" ++ msTag c ++ ".csv"

/-- dual_csv, run_m_sweep.py line 125: the dual-mode artifact path. -/
def dual_csv (results_dir : String) (c : Config) : String :=
  results_dir ++ "/dbam_dual_with_adapter_" ++ msTag c ++ ".csv"

/-- cmd_ivf, run_m_sweep.py lines 106 to 121: the baseline-mode worker
command line. -/
def cmd_ivf (a : Args) (results_dir : String) (c : Config) : String :=
  "python -u nq_cli.py " ++
  "--dataset " ++ a.dataset ++ " " ++
  "--work_dir " ++ a.work_dir ++ " " ++
  "--data_root " ++ a.data_root ++ " " ++
  "--run_root " ++ a.run_root ++ " " ++
  "--bits_sq " ++ toString a.bits_sq ++ " " ++
  "--nlist " ++ toString a.nlist ++ " " ++
  "--select_nprobe " ++ toString a.select_nprobe ++ " " ++
  "--k2_fixed " ++ toString a.k2_fixed ++ " " ++
  "--ms_infer " ++ msStr c ++ " " ++
  "--alphas " ++ a.alphas ++ " " ++
  "--mode ivf_fp32_adapter " ++
  "--out_csv " ++ ivf_csv results_dir c ++
  adapter_suffix a

/-- cmd_dual, run_m_sweep.py lines 127 to 142: the dual-mode worker
command line. -/
def cmd_dual (a : Args) (results_dir : String) (c : Config) : String :=
  "python -u nq_cli.py " ++
  "--dataset " ++ a.dataset ++ " " ++
  "--work_dir " ++ a.work_dir ++ " " ++
  "--data_root " ++ a.data_root ++ " " ++
  "--run_root " ++ a.run_root ++ " " ++
  "--bits_sq " ++ toString a.bits_sq ++ " " ++
  "--nlist " ++ toString a.nlist ++ " " ++
  "--select_nprobe " ++ toString a.select_nprobe ++ " " ++
  "--k2_fixed " ++ toString a.k2_fixed ++ " " ++
  "--ms_infer " ++ msStr c ++ " " ++
  "--alphas " ++ a.alphas ++ " " ++
  "--mode dbam_dual_adapter " ++
  "--out_csv " ++ dual_csv results_dir c ++
  adapter_suffix a

/-- Loop body of run_m_sweep.py lines 97 to 143 for one configuration:
the baseline invocation guarded by the existence of its artifact, then
the dual invocation guarded by the existence of its artifact. When an
artifact exists, this variant simply does nothing for that pair: no
skip notice is printed. -/
def configEvents (a : Args) (results_dir : String) (fs : String → Bool)
    (c : Config) : List Event :=
  (if fs (ivf_csv results_dir c) then []
   else [Event.run (cmd_ivf a results_dir c)]) ++
  (if fs (dual_csv results_dir c) then []
   else [Event.run (cmd_dual a results_dir c)])

/-- Environment for the workers, run_m_sweep.py lines 82 to 85: copy of
the ambient environment, PYTHONUNBUFFERED forced to 1, two thread-count
variables defaulted to 8. -/
def childEnv (amb : Env) : Env :=
  envSetdefault
    (envSetdefault (envSet amb "PYTHONUNBUFFERED" "1") "OMP_NUM_THREADS" "8")
    "MKL_NUM_THREADS" "8"

/-- The planning part of main (run_m_sweep.py lines 61 to 143): select
the group from the fixed grid, derive the results directory from the
group index and the timestamp ts, and list the (configuration, mode)
steps in order. A ValueError before the loop is an error result. -/
def plan (a : Args) (ts : String) (fs : String → Bool) :
    Except String (List Event) :=
  match pickGroupFixed GRID_MS a.group with
  | Except.error e => Except.error e
  | Except.ok ms_list =>
    let tag := "g" ++ toString a.group ++ "_" ++ ts
    let results_dir := a.run_root ++ "/results/" ++ tag
    Except.ok ((ms_list.map (configEvents a results_dir fs)).flatten)

end RunMSweep

namespace RunMSweepIvf

/-- Command-line arguments of run_m_sweep_ivf.py (parse_args, lines 31
to 90). The unused intermediate_root flag is omitted. Float-typed flags
carry their canonical decimal rendering. -/
structure Args where
  dataset : String
  work_dir : String
  data_root : String
  run_root : String
  bits_sq : Int
  nlist : Int
  select_nprobe : Int
  k2_fixed : Int
  alphas : String
  tau : String
  beta : String
  cands : Int
  teacher : String
  lr : String
  epochs : Int
  subset : Int
  q_batch : Int
  slug : String
  m13 : Int
  s2_values : String
  group : Int
  results_tag : String

/-- The argparse defaults of run_m_sweep_ivf.py, with the required m13
and group supplied; str(5e-4) renders as 0.0005. -/
def defaultArgs (m13 group : Int) : Args :=
  { dataset := "beir_nq"
    work_dir := "/mnt/work"
    data_root := "/mnt/work/datasets"
    run_root := "/mnt/work/runs/m_sweep"
    bits_sq := 4
    nlist := 1024
    select_nprobe := 64
    k2_fixed := 1000
    alphas := "2,2,2"
    tau := "0.5"
    beta := "6.0"
    cands := 2048
    teacher := "cos"
    lr := "0.0005"
    epochs := 5
    subset := 50000
    q_batch := 64
    slug := "auto"
    m13 := m13
    s2_values := "1,2,4,8"
    group := group
    results_tag := "" }

/-- auto_slug, run_m_sweep_ivf.py lines 93 to 100: an explicit slug is
kept as is; otherwise the slug is built from the adapter hyperparameters
and every dot is removed. -/
def auto_slug (a : Args) : String :=
  if ¬ a.slug = "auto" then a.slug
  else
    stripDots
      ("tau" ++ a.tau ++ "_b" ++ a.beta ++ "_c" ++ toString a.cands ++
       "_" ++ a.teacher ++ "_lr" ++ a.lr ++ "_e" ++ toString a.epochs ++
       "_s" ++ toString a.subset)

/-- Group selection with the empty-slice check of run_m_sweep_ivf.py
lines 118 to 124. -/
def pickGroup (grid : List Config) (g : Int) : Except String (List Config) :=
  let ms_list := selectGroup grid g
  if ms_list.isEmpty then
    Except.error ("Group " ++ toString g ++ " has no configs to run (grid size="
      ++ toString grid.length ++ ").")
  else
    Except.ok ms_list

/-- tag, run_m_sweep_ivf.py line 131: the stripped user override when it
is non-empty, otherwise m13, group index and timestamp. -/
def tag (a : Args) (ts : String) : String :=
  if pyStrip a.results_tag = "" then
    "m13" ++ toString a.m13 ++ "_g" ++ toString a.group ++ "_" ++ ts
  else
    pyStrip a.results_tag

/-- results_dir, run_m_sweep_ivf.py line 132. -/
def results_dir (a : Args) (ts : String) : String :=
  a.run_root ++ "/results/" ++ tag a ts

/-- log_path, run_m_sweep_ivf.py line 135. -/
def log_path (a : Args) (ts : String) : String :=
  results_dir a ts ++ "/m_sweep_" ++ tag a ts ++ ".log"

/-- Directory creation and log opening, run_m_sweep_ivf.py lines 127 to
146: mkdir(parents=True, exist_ok=True) on the run root and the results
directory, then open(log_path, "w"). -/
def jobStart (a : Args) (ts : String) (fs : FS) : FS :=
  ((fs.mkdirP a.run_root).mkdirP (results_dir a ts)).openW (log_path a ts)

/-- Environment for the workers, run_m_sweep_ivf.py lines 138 to 144:
copy of the ambient environment; WORK_DIR, DATA_ROOT and RUN_ROOT
defaulted to the corresponding arguments, PYTHONUNBUFFERED forced to 1,
two thread-count variables defaulted to 8. -/
def childEnv (a : Args) (amb : Env) : Env :=
  envSetdefault
    (envSetdefault
      (envSet
        (envSetdefault
          (envSetdefault (envSetdefault amb "WORK_DIR" a.work_dir)
            "DATA_ROOT" a.data_root)
          "RUN_ROOT" a.run_root)
        "PYTHONUNBUFFERED" "1")
      "OMP_NUM_THREADS" "8")
    "MKL_NUM_THREADS" "8"

/-- ivf_csv, run_m_sweep_ivf.py line 159: the artifact path of the one
active mode. -/
def ivf_csv (results_dir : String) (c : Config) : String :=
  results_dir ++ "/ivf_adapter_" ++ msTag c ++ ".csv"

/-- cmd, run_m_sweep_ivf.py lines 161 to 185: the worker command line of
the one active mode. This variant passes the slug already rewritten by
auto_slug at the top of main. -/
def cmd_ivf (a : Args) (results_dir : String) (c : Config) : String :=
  "python -u nq_cli.py " ++
  "--dataset " ++ a.dataset ++ " " ++
  "--work_dir " ++ a.work_dir ++ " " ++
  "--data_root " ++ a.data_root ++ " " ++
  "--run_root " ++ a.run_root ++ " " ++
  "--bits_sq " ++ toString a.bits_sq ++ " " ++
  "--nlist " ++ toString a.nlist ++ " " ++
  "--select_nprobe " ++ toString a.select_nprobe ++ " " ++
  "--k2_fixed " ++ toString a.k2_fixed ++ " " ++
  "--kfinal 10 25 50 100 " ++
  "--ms_infer " ++ msStr c ++ " " ++
  "--alphas " ++ a.alphas ++ " " ++
  "--tau " ++ a.tau ++ " " ++
  "--beta " ++ a.beta ++ " " ++
  "--cands " ++ toString a.cands ++ " " ++
  "--teacher " ++ a.teacher ++ " " ++
  "--lr " ++ a.lr ++ " " ++
  "--epochs " ++ toString a.epochs ++ " " ++
  "--subset " ++ toString a.subset ++ " " ++
  "--q_batch " ++ toString a.q_batch ++ " " ++
  "--slug " ++ a.slug ++ " " ++
  "--mode ivf_fp32_adapter " ++
  "--out_csv " ++ ivf_csv results_dir c

/-- Loop body of run_m_sweep_ivf.py lines 151 to 190 for one
configuration: when the artifact exists, a skip notice is printed to
the console and written to the log; otherwise the worker is invoked.
The dual-mode block (lines 193 to 224) is commented out in the source
and therefore absent here. -/
def configEvents (a : Args) (results_dir : String) (fs : String → Bool)
    (c : Config) : List Event :=
  if fs (ivf_csv results_dir c) then
    [Event.skip ("[skip] " ++ ivf_csv results_dir c ++ " exists")]
  else
    [Event.run (cmd_ivf a results_dir c)]

/-- The planning part of main (run_m_sweep_ivf.py lines 103 to 190):
rewrite the slug, build the parametric grid (ValueError when no valid
stage2 value remains), select the group (ValueError when empty), derive
the results directory, and list the steps in order. -/
def plan (a : Args) (ts : String) (fs : String → Bool) :
    Except String (List Event) :=
  let a2 : Args := { a with slug := auto_slug a }
  if (s2list a.s2_values).isEmpty then
    Except.error "No valid m2 values from --s2_values; must be subset of 1,2,4,8."
  else
    match pickGroup (buildGrid a.m13 a.s2_values) a.group with
    | Except.error e => Except.error e
    | Except.ok ms_list =>
      Except.ok ((ms_list.map (configEvents a2 (results_dir a ts) fs)).flatten)

end RunMSweepIvf

/-- Length of a Python slice, in terms of the normalised bounds. -/
theorem length_pySlice {α : Type} (xs : List α) (a b : Int) :
    (pySlice xs a b).length =
      min (pyIndex xs.length b) xs.length - pyIndex xs.length a := by
  simp [pySlice]

/-- For bounds 0 ≤ a and 0 ≤ b ≤ length, a Python slice is an ordinary
drop-then-take segment. -/
theorem pySlice_of_nonneg {α : Type} (xs : List α) (a b : Int)
    (ha : 0 ≤ a) (hb : 0 ≤ b) (hbn : b ≤ (xs.length : Int)) :
    pySlice xs a b = (xs.drop a.toNat).take (b.toNat - a.toNat) := by
  have hbn' : b.toNat ≤ xs.length := by omega
  have hb' : pyIndex xs.length b = b.toNat := by
    unfold pyIndex
    rw [if_neg (by omega)]
    omega
  have ha' : pyIndex xs.length a = min a.toNat xs.length := by
    unfold pyIndex
    rw [if_neg (by omega)]
  rw [pySlice, hb', ha']
  rcases le_or_lt a.toNat xs.length with h | h
  · rw [min_eq_left h, List.drop_take]
  · rw [min_eq_right (le_of_lt h)]
    have h1 : (xs.take b.toNat).drop xs.length = [] := by
      apply List.drop_eq_nil_of_le
      simp
    have h2 : xs.drop a.toNat = [] := List.drop_eq_nil_of_le (le_of_lt h)
    simp [h1, h2]

/-- C1: for every grid and every group index g with 0 ≤ g*4 < len(grid),
the Group Selector returns exactly the slice grid[g*4 : min(g*4+4, len(grid))] —
equal to the contiguous segment of 4 (or fewer, at the tail) configurations
starting at position g*4, in the original grid order — of length
min(4, len(grid) - g*4). -/
theorem C1_group_selector_in_range (grid : List Config) (g : Int)
    (h0 : 0 ≤ g * 4) (h1 : g * 4 < (grid.length : Int)) :
    selectGroup grid g = (grid.drop (g * 4).toNat).take 4 ∧
    (selectGroup grid g).length = min 4 (grid.length - (g * 4).toNat) := by
  have hb0 : 0 ≤ min (g * 4 + 4) (grid.length : Int) := by omega
  have hbn : min (g * 4 + 4) (grid.length : Int) ≤ (grid.length : Int) := by omega
  have hs := pySlice_of_nonneg grid (g * 4) (min (g * 4 + 4) (grid.length : Int)) h0 hb0 hbn
  have hkey : (min (g * 4 + 4) (grid.length : Int)).toNat - (g * 4).toNat
      = min 4 (grid.length - (g * 4).toNat) := by omega
  constructor
  · rw [selectGroup, hs, hkey]
    apply List.take_eq_take.mpr
    have : (grid.drop (g * 4).toNat).length = grid.length - (g * 4).toNat := by
      simp
    omega
  · rw [selectGroup, hs, hkey]
    rw [List.length_take, List.length_drop]
    omega

/-- Witness for C1 at g = 3 on the fixed grid: the last group of four. -/
theorem C1_group_selector_in_range_witness :
    selectGroup GRID_MS 3 = (GRID_MS.drop 12).take 4 ∧
    (selectGroup GRID_MS 3).length = min 4 (GRID_MS.length - 12) :=
  C1_group_selector_in_range GRID_MS 3 (by decide) (by decide)

/-- C10: negative group indices are not uniformly rejected. With g = -1 the
slice grid[-4:0] is always empty, so the job aborts; but for every g ≤ -2
with -g*4 ≤ len(grid) the slice is non-empty (Python negative indexing
selects from the tail) and the job proceeds. On the fixed grid, g = -2
selects the third row of four configurations. -/
theorem C10_negative_group_indices :
    (∀ grid : List Config, selectGroup grid (-1) = [] ∧
        pickGroupFixed grid (-1) = Except.error "Group -1 has no configs") ∧
    (∀ (grid : List Config) (g : Int), g ≤ -2 → -(g * 4) ≤ (grid.length : Int) →
        (selectGroup grid g).length = 4 ∧
        pickGroupFixed grid g = Except.ok (selectGroup grid g)) ∧
    pickGroupFixed GRID_MS (-2) = Except.ok [(4,1,4), (4,2,4), (4,4,4), (4,8,4)] := by
  refine ⟨?_, ?_, ?_⟩
  · intro grid
    have hnil : selectGroup grid (-1) = [] := by
      have hn : (0 : Int) ≤ (grid.length : Int) := Int.natCast_nonneg _
      have hmin : min ((-1 : Int) * 4 + 4) ((grid.length : Int)) = 0 := by omega
      unfold selectGroup pySlice
      rw [hmin]
      have h0 : pyIndex grid.length 0 = 0 := by
        unfold pyIndex
        simp
      rw [h0]
      simp
    refine ⟨hnil, ?_⟩
    unfold pickGroupFixed
    rw [hnil]
    rfl
  · intro grid g hg hlen
    have hn : (0 : Int) ≤ (grid.length : Int) := Int.natCast_nonneg _
    have hlen4 : (selectGroup grid g).length = 4 := by
      have hmin : min (g * 4 + 4) ((grid.length : Int)) = g * 4 + 4 := by omega
      unfold selectGroup
      rw [hmin, length_pySlice]
      unfold pyIndex
      rw [if_pos (by omega), if_pos (by omega)]
      omega
    refine ⟨hlen4, ?_⟩
    have hne : ¬ (selectGroup grid g).isEmpty = true := by
      rw [List.isEmpty_iff]
      intro h
      rw [h] at hlen4
      simp at hlen4
    unfold pickGroupFixed
    rw [if_neg hne]
  · rfl

/-- Witness for C10 on the fixed grid at g = -2. -/
theorem C10_negative_group_indices_witness :
    (selectGroup GRID_MS (-2)).length = 4 ∧
    pickGroupFixed GRID_MS (-2) = Except.ok (selectGroup GRID_MS (-2)) :=
  C10_negative_group_indices.2.1 GRID_MS (-2) (by decide) (by decide)

/-- C3: the parametric Grid Builder silently drops tokens outside the
allowed set, keeps the input order (the retained tokens form a sublist of
the raw token list), and returns one triple (m13, s2, m13) per retained
value; in particular m13 = 4 with s2_values "1,4,8,99,abc" yields
[(4,1,4), (4,4,4), (4,8,4)]. -/
theorem C3_parametric_grid_builder :
    buildGrid 4 "1,4,8,99,abc" = [(4,1,4), (4,4,4), (4,8,4)] ∧
    (∀ (m13 : Int) (s2_values : String),
        buildGrid m13 s2_values =
          ((s2raw s2_values).filter (fun x => allowedS2.contains x)).map
            (fun x => (m13, s2val x, m13))) ∧
    (∀ s2_values : String,
        List.Sublist ((s2raw s2_values).filter (fun x => allowedS2.contains x))
          (s2raw s2_values)) := by
  refine ⟨by decide, ?_, ?_⟩
  · intro m13 s2_values
    simp [buildGrid, s2list]
  · intro s2_values
    exact List.filter_sublist _

/-- Reading an assignment back at the assigned key. -/
theorem envSet_same (e : Env) (k v : String) : envSet e k v k = some v := by
  simp [envSet]

/-- An assignment leaves every other key unchanged. -/
theorem envSet_other (e : Env) (k v x : String) (h : ¬ x = k) :
    envSet e k v x = e x := by
  simp [envSet, h]

/-- setdefault at its own key: the previous value when present, the
default otherwise. -/
theorem envSetdefault_same (e : Env) (k v : String) :
    envSetdefault e k v k = some ((e k).getD v) := by
  unfold envSetdefault
  cases h : e k with
  | none => simp [envSet_same]
  | some w => simp [h]

/-- setdefault leaves every other key unchanged. -/
theorem envSetdefault_other (e : Env) (k v x : String) (h : ¬ x = k) :
    envSetdefault e k v x = e x := by
  unfold envSetdefault
  cases hk : e k with
  | none => simp [envSet, h]
  | some w => rfl

/-- C7 fails as stated: changing one hyperparameter does not always change
the derived slug. The learning rates 1.02 and 10.2 are distinct values with
distinct renderings, yet after decimal points are stripped both jobs derive
the same slug. -/
theorem C7_counterexample :
    RunMSweepIvf.auto_slug { RunMSweepIvf.defaultArgs 4 0 with lr := "1.02" } =
      RunMSweepIvf.auto_slug { RunMSweepIvf.defaultArgs 4 0 with lr := "10.2" } ∧
    ¬ ({ RunMSweepIvf.defaultArgs 4 0 with lr := "1.02" } : RunMSweepIvf.Args).lr =
      ({ RunMSweepIvf.defaultArgs 4 0 with lr := "10.2" } : RunMSweepIvf.Args).lr := by
  constructor
  · rfl
  · decide

/-- C7 amended: when slug is auto, the derived slug is a deterministic
function of the seven adapter hyperparameters (temperature, beta,
candidate count, teacher metric, learning rate, epoch count, subset
size) alone — two jobs with identical hyperparameters derive identical
slugs whatever their other arguments — but a change of one
hyperparameter does not always change the slug, because stripping
decimal points can identify distinct values. -/
theorem C7_slug_determinism (a1 a2 : RunMSweepIvf.Args)
    (h0 : a1.slug = "auto") (h0b : a2.slug = "auto")
    (h1 : a1.tau = a2.tau) (h2 : a1.beta = a2.beta)
    (h3 : a1.cands = a2.cands) (h4 : a1.teacher = a2.teacher)
    (h5 : a1.lr = a2.lr) (h6 : a1.epochs = a2.epochs)
    (h7 : a1.subset = a2.subset) :
    RunMSweepIvf.auto_slug a1 = RunMSweepIvf.auto_slug a2 := by
  unfold RunMSweepIvf.auto_slug
  rw [h0, h0b, h1, h2, h3, h4, h5, h6, h7]

/-- Witness for C7: identical hyperparameters, different query batch size
and group index, same derived slug. -/
theorem C7_slug_determinism_witness :
    RunMSweepIvf.auto_slug (RunMSweepIvf.defaultArgs 4 0) =
      RunMSweepIvf.auto_slug { RunMSweepIvf.defaultArgs 4 1 with q_batch := 128 } :=
  C7_slug_determinism _ _ rfl rfl rfl rfl rfl rfl rfl rfl rfl

/-- C8 fails as stated for the parametric variant: with an empty ambient
environment the worker environment contains WORK_DIR (set to its default
argument), a variable that is neither ambient nor one of the three named
in the claim. -/
theorem C8_counterexample :
    RunMSweepIvf.childEnv (RunMSweepIvf.defaultArgs 4 0) (fun _ => none) "WORK_DIR" =
      some "/mnt/work" ∧
    (fun _ => none : Env) "WORK_DIR" = none ∧
    ¬ "WORK_DIR" = "PYTHONUNBUFFERED" ∧
    ¬ "WORK_DIR" = "OMP_NUM_THREADS" ∧
    ¬ "WORK_DIR" = "MKL_NUM_THREADS" := by
  refine ⟨rfl, rfl, by decide, by decide, by decide⟩

/-- C8 amended: in both variants PYTHONUNBUFFERED is forced to 1 and the
two thread-count variables are defaulted to 8 with preexisting values
preserved. In the fixed variant every other ambient variable is passed
unchanged; in the parametric variant the three root-path variables
WORK_DIR, DATA_ROOT and RUN_ROOT are additionally defaulted to the
corresponding arguments when absent (preexisting values preserved), and
every variable outside these six is passed unchanged. -/
theorem C8_child_environment :
    (∀ amb : Env,
        RunMSweep.childEnv amb "PYTHONUNBUFFERED" = some "1" ∧
        RunMSweep.childEnv amb "OMP_NUM_THREADS"
          = some ((amb "OMP_NUM_THREADS").getD "8") ∧
        RunMSweep.childEnv amb "MKL_NUM_THREADS"
          = some ((amb "MKL_NUM_THREADS").getD "8") ∧
        (∀ k, ¬ k = "PYTHONUNBUFFERED" → ¬ k = "OMP_NUM_THREADS" →
            ¬ k = "MKL_NUM_THREADS" → RunMSweep.childEnv amb k = amb k)) ∧
    (∀ (a : RunMSweepIvf.Args) (amb : Env),
        RunMSweepIvf.childEnv a amb "PYTHONUNBUFFERED" = some "1" ∧
        RunMSweepIvf.childEnv a amb "OMP_NUM_THREADS"
          = some ((amb "OMP_NUM_THREADS").getD "8") ∧
        RunMSweepIvf.childEnv a amb "MKL_NUM_THREADS"
          = some ((amb "MKL_NUM_THREADS").getD "8") ∧
        RunMSweepIvf.childEnv a amb "WORK_DIR"
          = some ((amb "WORK_DIR").getD a.work_dir) ∧
        RunMSweepIvf.childEnv a amb "DATA_ROOT"
          = some ((amb "DATA_ROOT").getD a.data_root) ∧
        RunMSweepIvf.childEnv a amb "RUN_ROOT"
          = some ((amb "RUN_ROOT").getD a.run_root) ∧
        (∀ k, ¬ k = "PYTHONUNBUFFERED" → ¬ k = "OMP_NUM_THREADS" →
            ¬ k = "MKL_NUM_THREADS" → ¬ k = "WORK_DIR" → ¬ k = "DATA_ROOT" →
            ¬ k = "RUN_ROOT" → RunMSweepIvf.childEnv a amb k = amb k)) := by
  constructor
  · intro amb
    refine ⟨?_, ?_, ?_, ?_⟩
    · unfold RunMSweep.childEnv
      rw [envSetdefault_other _ _ _ _ (by decide),
        envSetdefault_other _ _ _ _ (by decide), envSet_same]
    · unfold RunMSweep.childEnv
      rw [envSetdefault_other _ _ _ _ (by decide), envSetdefault_same,
        envSet_other _ _ _ _ (by decide)]
    · unfold RunMSweep.childEnv
      rw [envSetdefault_same, envSetdefault_other _ _ _ _ (by decide),
        envSet_other _ _ _ _ (by decide)]
    · intro k hk1 hk2 hk3
      unfold RunMSweep.childEnv
      rw [envSetdefault_other _ _ _ _ hk3, envSetdefault_other _ _ _ _ hk2,
        envSet_other _ _ _ _ hk1]
  · intro a amb
    refine ⟨?_, ?_, ?_, ?_, ?_, ?_, ?_⟩
    · unfold RunMSweepIvf.childEnv
      rw [envSetdefault_other _ _ _ _ (by decide),
        envSetdefault_other _ _ _ _ (by decide), envSet_same]
    · unfold RunMSweepIvf.childEnv
      rw [envSetdefault_other _ _ _ _ (by decide), envSetdefault_same,
        envSet_other _ _ _ _ (by decide), envSetdefault_other _ _ _ _ (by decide),
        envSetdefault_other _ _ _ _ (by decide),
        envSetdefault_other _ _ _ _ (by decide)]
    · unfold RunMSweepIvf.childEnv
      rw [envSetdefault_same, envSetdefault_other _ _ _ _ (by decide),
        envSet_other _ _ _ _ (by decide), envSetdefault_other _ _ _ _ (by decide),
        envSetdefault_other _ _ _ _ (by decide),
        envSetdefault_other _ _ _ _ (by decide)]
    · unfold RunMSweepIvf.childEnv
      rw [envSetdefault_other _ _ _ _ (by decide),
        envSetdefault_other _ _ _ _ (by decide),
        envSet_other _ _ _ _ (by decide),
        envSetdefault_other _ _ _ _ (by decide),
        envSetdefault_other _ _ _ _ (by decide), envSetdefault_same]
    · unfold RunMSweepIvf.childEnv
      rw [envSetdefault_other _ _ _ _ (by decide),
        envSetdefault_other _ _ _ _ (by decide),
        envSet_other _ _ _ _ (by decide),
        envSetdefault_other _ _ _ _ (by decide), envSetdefault_same,
        envSetdefault_other _ _ _ _ (by decide)]
    · unfold RunMSweepIvf.childEnv
      rw [envSetdefault_other _ _ _ _ (by decide),
        envSetdefault_other _ _ _ _ (by decide),
        envSet_other _ _ _ _ (by decide), envSetdefault_same,
        envSetdefault_other _ _ _ _ (by decide),
        envSetdefault_other _ _ _ _ (by decide)]
    · intro k hk1 hk2 hk3 hk4 hk5 hk6
      unfold RunMSweepIvf.childEnv
      rw [envSetdefault_other _ _ _ _ hk3, envSetdefault_other _ _ _ _ hk2,
        envSet_other _ _ _ _ hk1, envSetdefault_other _ _ _ _ hk6,
        envSetdefault_other _ _ _ _ hk5, envSetdefault_other _ _ _ _ hk4]

/-- Witness for C8: the home directory variable passes through both
variants unchanged. -/
theorem C8_child_environment_witness :
    RunMSweep.childEnv (fun x => if x = "HOME" then some "/root" else none) "HOME"
      = some "/root" ∧
    RunMSweepIvf.childEnv (RunMSweepIvf.defaultArgs 4 0)
      (fun x => if x = "HOME" then some "/root" else none) "HOME" = some "/root" := by
  constructor
  · rw [(C8_child_environment.1 (fun x => if x = "HOME" then some "/root" else none)).2.2.2
      "HOME" (by decide) (by decide) (by decide)]
    rfl
  · rw [(C8_child_environment.2 (RunMSweepIvf.defaultArgs 4 0)
      (fun x => if x = "HOME" then some "/root" else none)).2.2.2.2.2.2
      "HOME" (by decide) (by decide) (by decide) (by decide) (by decide) (by decide)]
    rfl

/-- C2 fails as stated: in the fixed variant, when the artifact of a
selected pair already exists the worker is (correctly) not invoked, but
no skip notice is emitted at all — the loop body produces no step for
that pair, against the claimed notice to console and log. -/
theorem C2_counterexample :
    (fun _ => true : String → Bool)
      (RunMSweep.ivf_csv "rd" (1,1,1)) = true ∧
    RunMSweep.configEvents (RunMSweep.defaultArgs 0) "rd" (fun _ => true) (1,1,1)
      = [] := by
  exact ⟨rfl, rfl⟩

/-- C2 amended: in both variants the worker command of a selected pair is
invoked exactly when the derived artifact path does not exist at check
time. When it exists, the parametric variant emits a skip notice to
console and log; the fixed variant skips silently, emitting nothing. -/
theorem C2_artifact_skip_guard :
    (∀ (a : RunMSweep.Args) (rd : String) (fs : String → Bool) (c : Config),
        runsOf (RunMSweep.configEvents a rd fs c) =
          (if fs (RunMSweep.ivf_csv rd c) then []
           else [RunMSweep.cmd_ivf a rd c]) ++
          (if fs (RunMSweep.dual_csv rd c) then []
           else [RunMSweep.cmd_dual a rd c]) ∧
        ∀ m, ¬ Event.skip m ∈ RunMSweep.configEvents a rd fs c) ∧
    (∀ (a : RunMSweepIvf.Args) (rd : String) (fs : String → Bool) (c : Config),
        runsOf (RunMSweepIvf.configEvents a rd fs c) =
          (if fs (RunMSweepIvf.ivf_csv rd c) then []
           else [RunMSweepIvf.cmd_ivf a rd c]) ∧
        (Event.skip ("[skip] " ++ RunMSweepIvf.ivf_csv rd c ++ " exists") ∈
            RunMSweepIvf.configEvents a rd fs c
          ↔ fs (RunMSweepIvf.ivf_csv rd c) = true)) := by
  constructor
  · intro a rd fs c
    cases h1 : fs (RunMSweep.ivf_csv rd c) <;>
      cases h2 : fs (RunMSweep.dual_csv rd c) <;>
        simp [RunMSweep.configEvents, runsOf, h1, h2]
  · intro a rd fs c
    cases h1 : fs (RunMSweepIvf.ivf_csv rd c) <;>
      simp [RunMSweepIvf.configEvents, runsOf, h1]

/-- Witness for C2 amended: an everything-exists filesystem spawns no
worker and, in the fixed variant, emits no notice either. -/
theorem C2_artifact_skip_guard_witness :
    ¬ Event.skip "x" ∈
      RunMSweep.configEvents (RunMSweep.defaultArgs 0) "rd" (fun _ => true) (1,1,1) :=
  (C2_artifact_skip_guard.1 (RunMSweep.defaultArgs 0) "rd" (fun _ => true) (1,1,1)).2 "x"

/-- C5: the fixed grid is exactly the 16 hardcoded triples, with stage1
and stage2 drawn from 1, 2, 4, 8 and stage3 mirroring stage1; group 0
selects the first four configurations; and for each selected
configuration the loop body attempts the baseline-mode invocation and
then the dual-mode invocation, in that order, each guarded only by the
existence of its own artifact; a fixed-grid job with group 0 therefore
plans exactly those four loop bodies in grid order. -/
theorem C5_fixed_grid_end_to_end :
    GRID_MS.length = 16 ∧
    (∀ c ∈ GRID_MS,
        (c.1 = 1 ∨ c.1 = 2 ∨ c.1 = 4 ∨ c.1 = 8) ∧
        (c.2.1 = 1 ∨ c.2.1 = 2 ∨ c.2.1 = 4 ∨ c.2.1 = 8) ∧
        c.2.2 = c.1) ∧
    pickGroupFixed GRID_MS 0 = Except.ok [(1,1,1), (1,2,1), (1,4,1), (1,8,1)] ∧
    (∀ (a : RunMSweep.Args) (rd : String) (fs : String → Bool) (c : Config),
        RunMSweep.configEvents a rd fs c =
          (if fs (RunMSweep.ivf_csv rd c) then []
           else [Event.run (RunMSweep.cmd_ivf a rd c)]) ++
          (if fs (RunMSweep.dual_csv rd c) then []
           else [Event.run (RunMSweep.cmd_dual a rd c)])) ∧
    (∀ (a : RunMSweep.Args) (ts : String) (fs : String → Bool), a.group = 0 →
        RunMSweep.plan a ts fs = Except.ok
          ((([(1,1,1), (1,2,1), (1,4,1), (1,8,1)] : List Config).map
            (RunMSweep.configEvents a
              (a.run_root ++ "/results/" ++ ("g0_" ++ ts)) fs)).flatten)) := by
  refine ⟨rfl, by decide, rfl, ?_, ?_⟩
  · intro a rd fs c
    rfl
  · intro a ts fs h
    unfold RunMSweep.plan
    rw [h]
    rfl

/-- Witness for C5: the mirroring property at the grid member (1,2,1),
and the planned job for the default arguments at group 0. -/
theorem C5_fixed_grid_end_to_end_witness :
    ((1,2,1) : Config).2.2 = ((1,2,1) : Config).1 ∧
    RunMSweep.plan (RunMSweep.defaultArgs 0) "T" (fun _ => false) = Except.ok
      ((([(1,1,1), (1,2,1), (1,4,1), (1,8,1)] : List Config).map
        (RunMSweep.configEvents (RunMSweep.defaultArgs 0)
          ((RunMSweep.defaultArgs 0).run_root ++ "/results/" ++ ("g0_" ++ "T"))
          (fun _ => false))).flatten) :=
  ⟨(C5_fixed_grid_end_to_end.2.1 (1,2,1) (by decide)).2.2,
   C5_fixed_grid_end_to_end.2.2.2.2 (RunMSweep.defaultArgs 0) "T" (fun _ => false) rfl⟩

/-- Dropping a skip notice keeps the command list. -/
theorem runsOf_skip_cons (m : String) (evs : List Event) :
    runsOf (Event.skip m :: evs) = runsOf evs := by
  simp [runsOf]

/-- A worker step contributes its command at the front. -/
theorem runsOf_run_cons (cmd : String) (evs : List Event) :
    runsOf (Event.run cmd :: evs) = cmd :: runsOf evs := by
  simp [runsOf]

/-- C4: the two configuration errors — an empty group slice or an empty
filtered stage2 list — make the planning phase abort with the descriptive
ValueError message of the source before any step is produced, so an entire
job run (for every exit-code oracle, i.e. whatever the worker would have
done) starts zero subprocesses. -/
theorem C4_configuration_errors :
    (∀ (a : RunMSweep.Args) (ts : String) (fs : String → Bool),
        selectGroup GRID_MS a.group = [] →
        RunMSweep.plan a ts fs =
          Except.error ("Group " ++ toString a.group ++ " has no configs") ∧
        ∀ exitCode, execJob exitCode (RunMSweep.plan a ts fs) =
          ([], some ("Group " ++ toString a.group ++ " has no configs"))) ∧
    (∀ (a : RunMSweepIvf.Args) (ts : String) (fs : String → Bool),
        s2list a.s2_values = [] →
        RunMSweepIvf.plan a ts fs =
          Except.error "No valid m2 values from --s2_values; must be subset of 1,2,4,8." ∧
        ∀ exitCode, execJob exitCode (RunMSweepIvf.plan a ts fs) =
          ([], some "No valid m2 values from --s2_values; must be subset of 1,2,4,8.")) ∧
    (∀ (a : RunMSweepIvf.Args) (ts : String) (fs : String → Bool),
        ¬ s2list a.s2_values = [] →
        selectGroup (buildGrid a.m13 a.s2_values) a.group = [] →
        RunMSweepIvf.plan a ts fs =
          Except.error ("Group " ++ toString a.group ++ " has no configs to run (grid size="
            ++ toString (buildGrid a.m13 a.s2_values).length ++ ").") ∧
        ∀ exitCode, execJob exitCode (RunMSweepIvf.plan a ts fs) =
          ([], some ("Group " ++ toString a.group ++ " has no configs to run (grid size="
            ++ toString (buildGrid a.m13 a.s2_values).length ++ ")."))) := by
  refine ⟨?_, ?_, ?_⟩
  · intro a ts fs hsel
    have hp : pickGroupFixed GRID_MS a.group =
        Except.error ("Group " ++ toString a.group ++ " has no configs") := by
      unfold pickGroupFixed
      rw [hsel]
      rfl
    have hplan : RunMSweep.plan a ts fs =
        Except.error ("Group " ++ toString a.group ++ " has no configs") := by
      unfold RunMSweep.plan
      rw [hp]
    refine ⟨hplan, ?_⟩
    intro exitCode
    rw [hplan]
    rfl
  · intro a ts fs hs2
    have hplan : RunMSweepIvf.plan a ts fs =
        Except.error "No valid m2 values from --s2_values; must be subset of 1,2,4,8." := by
      unfold RunMSweepIvf.plan
      rw [hs2]
      rfl
    refine ⟨hplan, ?_⟩
    intro exitCode
    rw [hplan]
    rfl
  · intro a ts fs hs2 hsel
    have h1 : ¬ (s2list a.s2_values).isEmpty = true := by
      intro h
      exact hs2 (List.isEmpty_iff.mp h)
    have hp : RunMSweepIvf.pickGroup (buildGrid a.m13 a.s2_values) a.group =
        Except.error ("Group " ++ toString a.group ++ " has no configs to run (grid size="
          ++ toString (buildGrid a.m13 a.s2_values).length ++ ").") := by
      unfold RunMSweepIvf.pickGroup
      rw [hsel]
      rfl
    have hplan : RunMSweepIvf.plan a ts fs =
        Except.error ("Group " ++ toString a.group ++ " has no configs to run (grid size="
          ++ toString (buildGrid a.m13 a.s2_values).length ++ ").") := by
      unfold RunMSweepIvf.plan
      rw [if_neg h1, hp]
    refine ⟨hplan, ?_⟩
    intro exitCode
    rw [hplan]
    rfl

/-- Witness for C4: group 4 on the 16-entry fixed grid, an all-invalid
sweep list, and group 1 on a 4-entry parametric grid. -/
theorem C4_configuration_errors_witness :
    RunMSweep.plan (RunMSweep.defaultArgs 4) "T" (fun _ => false) =
      Except.error "Group 4 has no configs" ∧
    RunMSweepIvf.plan { RunMSweepIvf.defaultArgs 4 0 with s2_values := "99" } "T"
        (fun _ => false) =
      Except.error "No valid m2 values from --s2_values; must be subset of 1,2,4,8." ∧
    RunMSweepIvf.plan (RunMSweepIvf.defaultArgs 4 1) "T" (fun _ => false) =
      Except.error "Group 1 has no configs to run (grid size=4)." :=
  ⟨(C4_configuration_errors.1 (RunMSweep.defaultArgs 4) "T" (fun _ => false) (by decide)).1,
   (C4_configuration_errors.2.1 { RunMSweepIvf.defaultArgs 4 0 with s2_values := "99" } "T"
     (fun _ => false) (by decide)).1,
   (C4_configuration_errors.2.2 (RunMSweepIvf.defaultArgs 4 1) "T" (fun _ => false)
     (by decide) (by decide)).1⟩

/-- C6: a worker exiting non-zero makes runCmd fail with an error carrying
the exit code and the exact command line, and sequential execution stops
there: the started commands are exactly those before the failing one plus
the failing one itself — nothing planned after it (later modes or
configurations) is attempted. -/
theorem C6_fail_fast :
    (∀ (exitCode : String → Int) (cmd : String), ¬ exitCode cmd = 0 →
        runCmd exitCode cmd =
          Except.error ("Command failed (" ++ toString (exitCode cmd) ++ "): " ++ cmd)) ∧
    (∀ (exitCode : String → Int) (pre : List Event) (c : String) (post : List Event),
        (∀ d ∈ runsOf pre, exitCode d = 0) →
        ¬ exitCode c = 0 →
        execPlan exitCode (pre ++ Event.run c :: post) =
          (runsOf pre ++ [c],
           some ("Command failed (" ++ toString (exitCode c) ++ "): " ++ c))) := by
  constructor
  · intro exitCode cmd h
    unfold runCmd
    rw [if_pos h]
  · intro exitCode pre c post hpre hc
    induction pre with
    | nil =>
      have hr : runCmd exitCode c =
          Except.error ("Command failed (" ++ toString (exitCode c) ++ "): " ++ c) := by
        unfold runCmd
        rw [if_pos hc]
      show execPlan exitCode (Event.run c :: post) = _
      unfold execPlan
      rw [hr]
      rfl
    | cons e pre ih =>
      cases e with
      | skip m =>
        have h2 := ih (fun d hd => hpre d (by rw [runsOf_skip_cons]; exact hd))
        rw [runsOf_skip_cons]
        exact h2
      | run d =>
        have hd0 : exitCode d = 0 := by
          apply hpre d
          rw [runsOf_run_cons]
          exact List.mem_cons_self d (runsOf pre)
        have h2 := ih (fun x hx => hpre x (by rw [runsOf_run_cons]; exact List.mem_cons_of_mem _ hx))
        have hrc : runCmd exitCode d = Except.ok () := by
          unfold runCmd
          rw [if_neg (fun h => h hd0)]
        rw [runsOf_run_cons]
        show execPlan exitCode (Event.run d :: (pre ++ Event.run c :: post)) = _
        unfold execPlan
        rw [hrc, h2]
        rfl

/-- Witness for C6: the second command fails with exit code 1; the first
ran, the failing one is reported, the one after it is never started. -/
theorem C6_fail_fast_witness :
    execPlan (fun s => if s = "boom" then 1 else 0)
        [Event.run "ok1", Event.skip "note", Event.run "boom", Event.run "later"] =
      (["ok1", "boom"], some "Command failed (1): boom") :=
  C6_fail_fast.2 (fun s => if s = "boom" then 1 else 0)
    [Event.run "ok1", Event.skip "note"] "boom" [Event.run "later"]
    (by decide) (by decide)

/-- C9 fails in its append part: the log is opened with mode w, which
truncates, so a re-run with the same results tag replaces the previous
log content with an empty file instead of appending to it. -/
theorem C9_counterexample :
    FS.read
      (RunMSweepIvf.jobStart { RunMSweepIvf.defaultArgs 4 0 with results_tag := "t" } "ts"
        ⟨[], [(RunMSweepIvf.log_path { RunMSweepIvf.defaultArgs 4 0 with results_tag := "t" } "ts",
               "previous log")]⟩)
      (RunMSweepIvf.log_path { RunMSweepIvf.defaultArgs 4 0 with results_tag := "t" } "ts")
      = some "" ∧
    FS.read
      (⟨[], [(RunMSweepIvf.log_path { RunMSweepIvf.defaultArgs 4 0 with results_tag := "t" } "ts",
              "previous log")]⟩ : FS)
      (RunMSweepIvf.log_path { RunMSweepIvf.defaultArgs 4 0 with results_tag := "t" } "ts")
      = some "previous log" := by
  exact ⟨rfl, rfl⟩

/-- C9 amended: directory creation is idempotent — mkdir with exist_ok
never fails and re-creating an existing directory is a no-op — and each
job opens one log file at a fixed path; but that file is opened in
truncating write mode, so a re-run with the same tag starts from an
empty log, destroying rather than appending to the previous one. -/
theorem C9_directories_and_log :
    (∀ (fs : FS) (d : String),
        FS.mkdir fs d true = Except.ok (fs.mkdirP d) ∧
        (fs.mkdirP d).mkdirP d = fs.mkdirP d ∧
        ((fs.mkdirP d).dirs.contains d) = true) ∧
    (∀ (a : RunMSweepIvf.Args) (ts : String) (fs : FS),
        FS.read (RunMSweepIvf.jobStart a ts fs) (RunMSweepIvf.log_path a ts) = some "") := by
  constructor
  · intro fs d
    refine ⟨?_, ?_, ?_⟩
    · by_cases h : d ∈ fs.dirs <;> simp [FS.mkdir, FS.mkdirP, h]
    · by_cases h : d ∈ fs.dirs <;> simp [FS.mkdirP, h]
    · by_cases h : d ∈ fs.dirs <;> simp [FS.mkdirP, h]
  · intro a ts fs
    unfold RunMSweepIvf.jobStart FS.openW FS.read
    rw [List.find?_cons_of_pos _ (by simp)]
    rfl
